import Mathlib

/-!
Verification of the AI Interviewer frontend core against its specification.

The definitions below are a shallow embedding of:
- `frontend/src/context/InterviewContext.js` (the reducer over the interview
  context state and its action vocabulary),
- `frontend/src/api/interviewService.js` (request construction, validation and
  global error handling for the HTTP API),
- `frontend/src/components/ChatInterface.js` (the text and voice turn handlers:
  which API call is made and which context actions a turn dispatches),
- `frontend/src/components/CodingChallenge.js` (the stage effect that marks a
  loaded challenge as `coding_challenge_waiting`, and the editor submit body).

The backend Session Store and Agent Loop are not part of the checked sources;
where a claim is decided by them, a definition explicitly marked as modelled
from the spec stands in.
-/

/-- A chat message as stored in the frontend interview context.  Mirrors the
objects passed to `addMessage` in `ChatInterface.js`: a `role`, a `content`
string, an optional `loading` flag (used for the transient voice placeholder),
an optional hint marker and an optional audio URL. -/
structure Message where
  role : String
  content : String
  loading : Bool := false
  isHint : Bool := false
  audioUrl : Option String := none
deriving DecidableEq

/-- Job-role configuration as sent in request bodies (`role_name`,
`seniority_level`, `required_skills`, `description` in the frontend). -/
structure JobRole where
  role_name : String
  seniority_level : String
  required_skills : List String
  description : String
deriving DecidableEq

/-- A coding-challenge detail object as delivered in an API response
(`coding_challenge_detail`); only the fields the embedded claims inspect. -/
structure ChallengeDetail where
  challenge_id : String
  starter_code : String
  language : String
deriving DecidableEq

/-- The interview context state of `InterviewContext.js`. -/
structure ContextState where
  userId : String
  sessionId : Option String
  messages : List Message
  loading : Bool
  error : Option String
  voiceMode : Bool
  interviewStage : String
  jobRoleData : Option JobRole
  currentCodingChallenge : Option ChallengeDetail
deriving DecidableEq

/-- `initialState` of `InterviewContext.js`, parametrised by the uuid produced
by `uuidv4()` at module load. -/
def initialState (uuid : String) : ContextState :=
  { userId := "user-" ++ uuid
    sessionId := none
    messages := []
    loading := false
    error := none
    voiceMode := false
    interviewStage := "introduction"
    jobRoleData := none
    currentCodingChallenge := none }

/-- The action vocabulary (`ACTIONS`) of the interview context reducer.  The
`reset` action carries the fresh uuid that `uuidv4()` generates when the RESET
branch runs. -/
inductive CtxAction where
  | setUserId (v : String)
  | setSessionId (v : Option String)
  | setMessages (v : List Message)
  | addMessage (m : Message)
  | setLoading (v : Bool)
  | setError (v : Option String)
  | setVoiceMode (v : Bool)
  | setInterviewStage (v : String)
  | setJobRoleData (v : Option JobRole)
  | setCurrentCodingChallenge (v : Option ChallengeDetail)
  | reset (freshUuid : String)
deriving DecidableEq

/-- The reducer of `InterviewContext.js`.  `u0` is the uuid captured by the
module-level `initialState`, which the RESET branch spreads before overriding
`userId` with a fresh uuid and re-clearing `messages` and
`currentCodingChallenge`. -/
def reducer (u0 : String) (state : ContextState) (action : CtxAction) : ContextState :=
  match action with
  | .setUserId v => { state with userId := v }
  | .setSessionId v => { state with sessionId := v }
  | .setMessages v => { state with messages := v }
  | .addMessage m => { state with messages := state.messages ++ [m] }
  | .setLoading v => { state with loading := v }
  | .setError v => { state with error := v }
  | .setVoiceMode v => { state with voiceMode := v }
  | .setInterviewStage v => { state with interviewStage := v }
  | .setJobRoleData v => { state with jobRoleData := v }
  | .setCurrentCodingChallenge v => { state with currentCodingChallenge := v }
  | .reset u =>
      { initialState u0 with
          userId := "user-" ++ u
          messages := []
          currentCodingChallenge := none }

/-- Folding a list of dispatched actions through the reducer. -/
def applyActions (u0 : String) (st : ContextState) (l : List CtxAction) : ContextState :=
  l.foldl (reducer u0) st

/-- JS falsiness of an optional string parameter: absent (`null`/`undefined`)
or the empty string. -/
def strFalsy : Option String → Bool
  | none => true
  | some s => s == ""

/-- JS `String.prototype.trim`: strip leading and trailing whitespace. -/
def jsTrim (s : String) : String :=
  ⟨((s.data.dropWhile Char.isWhitespace).reverse.dropWhile Char.isWhitespace).reverse⟩

/-- JS `String.prototype.startsWith`. -/
def strStartsWith (s p : String) : Bool :=
  s.data.take p.data.length == p.data

/-- The shape of an axios error as inspected by `interviewService.js`:
`error.response` (with `status`, `data.detail`, `statusText`), `error.request`,
and `error.message`.  Absent string fields are the empty string. -/
structure JsError where
  hasResponse : Bool
  status : Option Nat
  detail : Option String
  statusText : String
  hasRequest : Bool
  message : String
deriving DecidableEq

/-- `handleApiError` of `interviewService.js`, modelled as the message of the
`Error` it unconditionally throws.  The branches mirror the source: a server
response yields `Server error: <detail or statusText>`, a request without a
response yields the fixed network message, and anything else falls back to
`error.message` or the custom/default message. -/
def handleApiError (error : JsError) (customMessage : Option String) : String :=
  let fallback :=
    match customMessage with
    | some c => if c == "" then "An error occurred" else c
    | none => "An error occurred"
  if error.hasResponse then
    "Server error: " ++
      (match error.detail with
       | some d => if d == "" then error.statusText else d
       | none => error.statusText)
  else if error.hasRequest then
    "No response from server. Check your network connection."
  else if error.message == "" then fallback
  else error.message

/-- Does the optional HTTP status reach the bound `k`? -/
def statusAtLeast (s : Option Nat) (k : Nat) : Bool :=
  match s with
  | some n => decide (k ≤ n)
  | none => false

/-- The global response interceptor of `interviewService.js`
(`api.interceptors.response.use`): on status 429 the error message is replaced
by the rate-limit text, then on any status `>= 500` by the server-error text. -/
def responseInterceptor (error : JsError) : JsError :=
  let e1 :=
    if error.hasResponse && (error.status == some 429) then
      { error with message := "Too many requests. Please wait a moment before trying again." }
    else error
  if e1.hasResponse && statusAtLeast e1.status 500 then
    { e1 with message := "The server encountered an error. Please try again later." }
  else e1

/-- The JSON body `submitChallengeCode` posts to `/coding/submit`. -/
structure SubmitRequestBody where
  challenge_id : String
  code : String
  user_id : Option String
  session_id : Option String
deriving DecidableEq

/-- `submitChallengeCode` of `interviewService.js`: validates its arguments and
either throws (modelled as `.error` with the thrown message) before any network
call, or produces the request body sent to `/coding/submit`. -/
def submitChallengeCode (challengeId : Option String) (code : String)
    (userId : Option String) (sessionId : Option String) :
    Except String SubmitRequestBody :=
  if strFalsy challengeId then .error "Challenge ID is required"
  else if code == "" || jsTrim code == "" then .error "Code solution is required"
  else .ok { challenge_id := challengeId.getD ""
             code := code
             user_id := userId
             session_id := sessionId }

/-- The JSON body the coding editor's `handleSubmit` (CodingChallenge.js) posts
to `/api/coding/submit`; unlike the service path it also carries `language`. -/
structure EditorSubmitBody where
  challenge_id : Option String
  language : String
  code : String
  user_id : String
  session_id : Option String
deriving DecidableEq

/-- The editor's `handleSubmit`: refuses empty/whitespace-only code with a
toast (modelled as `none`, no network call) and otherwise posts a body with
`challenge_id`, `language`, `code`, `user_id` and `session_id`. -/
def handleSubmitBody (challengeDetails : Option ChallengeDetail)
    (language code userId : String) (sessionId : Option String) :
    Option EditorSubmitBody :=
  if jsTrim code == "" then none
  else some { challenge_id := challengeDetails.map (fun c => c.challenge_id)
              language := language
              code := code
              user_id := userId
              session_id := sessionId }

/-- The `audio_data` field of the request `transcribeAndRespond` sends to
`/audio/transcribe`: missing or empty audio throws (`.error`) before any
network call; a full `data:audio/` data URI is forwarded unchanged; raw base64
gets the `data:audio/wav;base64,` URI tacked on. -/
def transcribeAndRespondAudioData : Option String → Except String String
  | none => .error "Audio data is required"
  | some a =>
      if a == "" then .error "Audio data is required"
      else if strStartsWith a "data:audio/" then .ok a
      else .ok ("data:audio/wav;base64," ++ a)

/-- The three interview API calls `handleSendMessage` in `ChatInterface.js`
can dispatch for an outgoing chat message. -/
inductive ApiCall where
  | start (message userId : String)
  | cont (message sessionId userId : String)
  | challengeComplete (message sessionId userId : String) (completed : Bool)
deriving DecidableEq

/-- Which API call `handleSendMessage` makes for a non-empty outgoing chat
message, as a function of the context `sessionId` and the local
`isWaitingForCodingChallenge` flag: no session starts one; with a session the
waiting flag routes to `continueAfterCodingChallenge` (with
`challenge_completed = true`), otherwise to `continueInterview`. -/
def handleSendMessageCall (sessionId : Option String) (isWaitingForCodingChallenge : Bool)
    (messageInput userId : String) : ApiCall :=
  match sessionId with
  | some sid =>
      if isWaitingForCodingChallenge then ApiCall.challengeComplete messageInput sid userId true
      else ApiCall.cont messageInput sid userId
  | none => ApiCall.start messageInput userId

/-- The URL `interviewService.js` posts each call to. -/
def ApiCall.endpoint : ApiCall → String
  | .start _ _ => "/interview"
  | .cont _ sid _ => "/interview/" ++ sid
  | .challengeComplete _ sid _ _ => "/interview/" ++ sid ++ "/challenge-complete"

/-- Is the call a `startInterview` (new-session) call? -/
def ApiCall.isStart : ApiCall → Bool
  | .start _ _ => true
  | _ => false

/-- The response object the service hands back to the chat handlers.  The
`start`/`continue` wrappers copy `coding_challenge_detail` into
`codingChallengeDetail`; both names carry the same value, embedded once. -/
structure ApiResponse where
  session_id : Option String
  response : Option String
  audio_response_url : Option String
  interview_stage : Option String
  codingChallengeDetail : Option ChallengeDetail
  transcription : Option String
deriving DecidableEq

/-- The context actions `handleSendMessage` dispatches on a successful text
turn, in dispatch order.  The empty-input guard dispatches nothing.  `st`
supplies the `sessionId` the handler reads; `isWaitingForCodingChallenge` is
the component's local flag. -/
def textTurnActions (st : ContextState) (isWaitingForCodingChallenge : Bool)
    (messageInput : String) (resp : ApiResponse) : List CtxAction :=
  if jsTrim messageInput == "" then []
  else
    [CtxAction.setLoading true,
     CtxAction.addMessage { role := "user", content := messageInput }]
    ++ (match st.sessionId with
        | some _ =>
            if isWaitingForCodingChallenge then [CtxAction.setCurrentCodingChallenge none]
            else []
        | none =>
            match resp.session_id with
            | some sid => [CtxAction.setSessionId (some sid)]
            | none => [])
    ++ (match resp.response with
        | some r =>
            [CtxAction.addMessage
              { role := "assistant", content := r, audioUrl := resp.audio_response_url }]
        | none => [])
    ++ (match resp.interview_stage with
        | some stg =>
            [CtxAction.setInterviewStage stg]
            ++ (if (stg == "coding_challenge" || stg == "coding_challenge_waiting")
                  && resp.codingChallengeDetail.isSome
                then [CtxAction.setCurrentCodingChallenge resp.codingChallengeDetail]
                else [])
        | none => [])
    ++ [CtxAction.setError none, CtxAction.setLoading false]

/-- The context actions `handleSendMessage` dispatches when the API call
throws. -/
def textTurnErrorActions (messageInput : String) : List CtxAction :=
  if jsTrim messageInput == "" then []
  else
    [CtxAction.setLoading true,
     CtxAction.addMessage { role := "user", content := messageInput },
     CtxAction.setError (some "Failed to send message. Please try again."),
     CtxAction.setLoading false]

/-- The context actions `handleVoiceRecording` dispatches on a successful voice
turn.  The locally built `updatedMessages` array that would replace the
transcription placeholder is never dispatched in the source, so no
`setMessages` appears here. -/
def voiceTurnActions (st : ContextState) (resp : ApiResponse) : List CtxAction :=
  [CtxAction.setLoading true,
   CtxAction.addMessage { role := "user", content := "🎤 Transcribing audio...", loading := true },
   CtxAction.addMessage
     { role := "assistant", content := resp.response.getD "",
       audioUrl := resp.audio_response_url }]
  ++ (match resp.interview_stage with
      | some stg =>
          [CtxAction.setInterviewStage stg]
          ++ (if stg == "coding_challenge" && resp.codingChallengeDetail.isSome
              then [CtxAction.setCurrentCodingChallenge resp.codingChallengeDetail]
              else if stg != "coding_challenge" && st.currentCodingChallenge.isSome
                   then [CtxAction.setCurrentCodingChallenge none]
                   else [])
      | none => [])
  ++ [CtxAction.setError none, CtxAction.setLoading false]

/-- The context actions `handleVoiceRecording` dispatches when transcription
fails; the error text depends on the `isVoiceUnavailable` marker. -/
def voiceTurnErrorActions (isVoiceUnavailable : Bool) : List CtxAction :=
  [CtxAction.setLoading true,
   CtxAction.addMessage { role := "user", content := "🎤 Transcribing audio...", loading := true },
   CtxAction.setError (some (if isVoiceUnavailable then "Voice processing is not available."
                             else "Failed to process voice input. Please try again.")),
   CtxAction.setLoading false]

/-- The `CodingChallenge.js` effect that marks a loaded challenge as waiting:
with challenge details present and the stage not already
`coding_challenge_waiting`, it dispatches that stage. -/
def codingChallengeStageEffect (st : ContextState) : ContextState :=
  if st.currentCodingChallenge.isSome && st.interviewStage != "coding_challenge_waiting" then
    { st with interviewStage := "coding_challenge_waiting" }
  else st

/-- The JSON body `continueAfterCodingChallenge` posts to
`/interview/{session_id}/challenge-complete`. -/
structure ChallengeCompleteBody where
  message : String
  user_id : String
  challenge_completed : Bool
deriving DecidableEq

/-- `continueAfterCodingChallenge` of `interviewService.js`: requires a session
and user id (throwing otherwise, before any network call) and posts the
challenge-complete body to the challenge-complete endpoint. -/
def continueAfterCodingChallenge (message : String) (sessionId userId : Option String)
    (completed : Bool) : Except String (String × ChallengeCompleteBody) :=
  if strFalsy sessionId then Except.error "Session ID is required"
  else if strFalsy userId then Except.error "User ID is required"
  else Except.ok ("/interview/" ++ sessionId.getD "" ++ "/challenge-complete",
                  { message := message, user_id := userId.getD "",
                    challenge_completed := completed })

/-- Context actions that never replace or truncate the `messages` array: every
action except `setMessages` and `reset`. -/
def msgAppendOnly : CtxAction → Bool
  | .setMessages _ => false
  | .reset _ => false
  | _ => true

/-- An axios error with a 503 response, as the interceptor would see it. -/
def serverErr : JsError :=
  { hasResponse := true, status := some 503, detail := none,
    statusText := "Service Unavailable", hasRequest := false, message := "Request failed" }

/-- An axios error with a 429 response. -/
def rateLimitErr : JsError :=
  { hasResponse := true, status := some 429, detail := none,
    statusText := "Too Many Requests", hasRequest := false, message := "Request failed" }

/-- A fresh context state for a conversation that has not started a session. -/
def startState : ContextState := initialState "u0"

/-- A successful `startInterview` response carrying the new session id. -/
def startResp : ApiResponse :=
  { session_id := some "s-77", response := some "Welcome to the interview",
    audio_response_url := none, interview_stage := some "introduction",
    codingChallengeDetail := none, transcription := none }

/-- A challenge already active on the client. -/
def activeChallenge : ChallengeDetail :=
  { challenge_id := "c-old", starter_code := "", language := "python" }

/-- A challenge detail delivered by the server. -/
def deliveredChallenge : ChallengeDetail :=
  { challenge_id := "c-42", starter_code := "def solve():", language := "python" }

/-- A context state waiting on the coding challenge with an active challenge. -/
def waitingVoiceState : ContextState :=
  { initialState "u0" with sessionId := some "s1",
                           interviewStage := "coding_challenge_waiting",
                           currentCodingChallenge := some activeChallenge }

/-- A voice-flow response carrying stage `coding_challenge_waiting` together
with a challenge detail. -/
def waitingVoiceResp : ApiResponse :=
  { session_id := some "s1", response := some "Keep going",
    audio_response_url := none, interview_stage := some "coding_challenge_waiting",
    codingChallengeDetail := some deliveredChallenge, transcription := some "ok" }

/-- A mid-interview context state with a session and no active challenge. -/
def textChallengeState : ContextState :=
  { initialState "u0" with sessionId := some "s1", interviewStage := "technical_questions" }

/-- A response moving the interview into the coding challenge, with detail. -/
def textChallengeResp : ApiResponse :=
  { session_id := some "s1", response := some "Here is your challenge",
    audio_response_url := none, interview_stage := some "coding_challenge",
    codingChallengeDetail := some deliveredChallenge, transcription := none }

/-- A voice-flow response whose stage has moved on to feedback. -/
def feedbackVoiceResp : ApiResponse :=
  { session_id := some "s1", response := some "Good work",
    audio_response_url := none, interview_stage := some "feedback",
    codingChallengeDetail := none, transcription := some "done" }

/-- Modelled from the spec: a backend conversation message with an identity —
the Agent Loop's idempotence check is "detected by message identity, not
content equality", so inbound messages carry an `id` distinct from their
`content`.  The backend implementation (`ai_interviewer/core`,
`ai_interviewer/utils/session_manager.py`) is not among the checked sources. -/
structure AgentMessage where
  id : String
  role : String
  content : String
deriving DecidableEq

/-- Modelled from the spec: the backend `InterviewSession` aggregate of §3 —
keyed by `session_id`, owning the ordered `messages` sequence, the current
`stage` and the `suspended` flag.  The backend implementation is not among the
checked sources. -/
structure InterviewSession where
  session_id : String
  user_id : String
  messages : List AgentMessage
  stage : String
  suspended : Bool
deriving DecidableEq

/-- Modelled from the spec: the Session Store keeps one record per
`session_id` containing the full `InterviewSession`. -/
abbrev SessionStore := List (String × InterviewSession)

namespace SessionStore

/-- Modelled from the spec: `save(InterviewSession) -> ok/err` persists the
full session under its `session_id`; the newest record shadows older ones. -/
def save (s : InterviewSession) (store : SessionStore) : SessionStore :=
  (s.session_id, s) :: store

/-- Modelled from the spec: `load(session_id) -> InterviewSession?` returns
the most recently saved record for the key, if any. -/
def load (sid : String) (store : SessionStore) : Option InterviewSession :=
  (store.find? (fun p => p.1 == sid)).map (fun p => p.2)

end SessionStore

/-- Modelled from the spec: the Agent Loop's entry guard — replaying an
inbound message the session already contains as its last message (same message
identity) is a no-op; otherwise the turn is processed by the loop, abstracted
here as `step`.  The Agent Loop implementation is not among the checked
sources. -/
def handleInboundMessage (session : InterviewSession) (msg : AgentMessage)
    (step : InterviewSession → AgentMessage → InterviewSession) : InterviewSession :=
  match session.messages.getLast? with
  | some last => if last.id == msg.id then session else step session msg
  | none => step session msg

/-- A one-message session used to exercise the replay guard. -/
def replaySession : InterviewSession :=
  { session_id := "s1", user_id := "u1",
    messages := [{ id := "m1", role := "user", content := "hello" }],
    stage := "introduction", suspended := false }

/-- A concrete processing step: append the inbound message. -/
def appendStep (s : InterviewSession) (m : AgentMessage) : InterviewSession :=
  { s with messages := s.messages ++ [m] }

/-- Prefixing raw base64 with the wav data URI always yields a string that
starts with `data:audio/`. -/
theorem wav_uri_starts_with_data_audio (a : String) :
    strStartsWith ("data:audio/wav;base64," ++ a) "data:audio/" = true := by
  unfold strStartsWith
  rw [String.data_append]
  rw [List.take_append_of_le_length (by decide)]
  decide

/-- A string append whose left part is nonempty is nonempty. -/
theorem append_left_ne_empty (s t : String) (h : s.data ≠ []) : s ++ t ≠ "" := by
  intro hc
  have hdata : s.data ++ t.data = ([] : List Char) := by
    have h2 := congrArg String.data hc
    rwa [String.data_append] at h2
  exact h (List.append_eq_nil.mp hdata).1

/-- A reducer step on an action other than `setMessages`/`reset` leaves the
recorded messages in place and at most appends. -/
theorem reducer_messages_append_only (u0 : String) (a : CtxAction)
    (h : msgAppendOnly a = true) (s : ContextState) :
    ∃ t, (reducer u0 s a).messages = s.messages ++ t := by
  cases a with
  | setMessages v => simp [msgAppendOnly] at h
  | reset u => simp [msgAppendOnly] at h
  | addMessage m => exact ⟨[m], rfl⟩
  | setUserId v => exact ⟨[], by simp [reducer]⟩
  | setSessionId v => exact ⟨[], by simp [reducer]⟩
  | setLoading v => exact ⟨[], by simp [reducer]⟩
  | setError v => exact ⟨[], by simp [reducer]⟩
  | setVoiceMode v => exact ⟨[], by simp [reducer]⟩
  | setInterviewStage v => exact ⟨[], by simp [reducer]⟩
  | setJobRoleData v => exact ⟨[], by simp [reducer]⟩
  | setCurrentCodingChallenge v => exact ⟨[], by simp [reducer]⟩

/-- Folding any sequence of append-only actions extends the messages list by a
suffix. -/
theorem applyActions_messages_of_all (u0 : String) :
    ∀ l : List CtxAction, l.all msgAppendOnly = true →
      ∀ st : ContextState, ∃ t, (applyActions u0 st l).messages = st.messages ++ t := by
  intro l
  induction l with
  | nil => exact fun _ st => ⟨[], by simp [applyActions]⟩
  | cons a l ih =>
      intro h st
      rw [List.all_cons, Bool.and_eq_true] at h
      obtain ⟨t1, h1⟩ := reducer_messages_append_only u0 a h.1 st
      obtain ⟨t2, h2⟩ := ih h.2 (reducer u0 st a)
      refine ⟨t1 ++ t2, ?_⟩
      have hstep : applyActions u0 st (a :: l) = applyActions u0 (reducer u0 st a) l := rfl
      rw [hstep, h2, h1, List.append_assoc]

/-- Every action of a successful text turn is append-only on messages. -/
theorem textTurnActions_all_append_only (st : ContextState) (w : Bool)
    (input : String) (resp : ApiResponse) :
    (textTurnActions st w input resp).all msgAppendOnly = true := by
  unfold textTurnActions
  split
  · rfl
  · simp only [List.all_append, Bool.and_eq_true]
    refine ⟨⟨⟨⟨?_, ?_⟩, ?_⟩, ?_⟩, ?_⟩
    · rfl
    · cases st.sessionId with
      | some sid => cases w <;> rfl
      | none => cases resp.session_id <;> rfl
    · cases resp.response <;> rfl
    · cases resp.interview_stage with
      | some stg =>
          simp only [List.all_append, Bool.and_eq_true]
          exact ⟨rfl, by split <;> rfl⟩
      | none => rfl
    · rfl

/-- Every action of a failed text turn is append-only on messages. -/
theorem textTurnErrorActions_all_append_only (input : String) :
    (textTurnErrorActions input).all msgAppendOnly = true := by
  unfold textTurnErrorActions
  split <;> rfl

/-- Every action of a successful voice turn is append-only on messages. -/
theorem voiceTurnActions_all_append_only (st : ContextState) (resp : ApiResponse) :
    (voiceTurnActions st resp).all msgAppendOnly = true := by
  unfold voiceTurnActions
  simp only [List.all_append, Bool.and_eq_true]
  refine ⟨⟨?_, ?_⟩, ?_⟩
  · rfl
  · cases resp.interview_stage with
    | some stg =>
        simp only [List.all_append, Bool.and_eq_true]
        refine ⟨rfl, ?_⟩
        split
        · rfl
        · split <;> rfl
    | none => rfl
  · rfl

/-- Every action of a failed voice turn is append-only on messages. -/
theorem voiceTurnErrorActions_all_append_only (b : Bool) :
    (voiceTurnErrorActions b).all msgAppendOnly = true := by
  cases b <;> rfl

/-- Claim C1 counterexample: with a session and the waiting-on-coding-challenge
flag set, an outgoing chat message is routed to `continueAfterCodingChallenge`
(POST `/interview/s1/challenge-complete`), not to `continueInterview`'s
`/interview/s1` endpoint, contrary to the claim's "otherwise continues ...
calling continueInterview". -/
theorem C1_counterexample :
    handleSendMessageCall (some "s1") true "Here is my attempt" "u1" =
      ApiCall.challengeComplete "Here is my attempt" "s1" "u1" true ∧
    (handleSendMessageCall (some "s1") true "Here is my attempt" "u1").endpoint ≠
      "/interview/" ++ "s1" := by
  exact ⟨rfl, by decide⟩

/-- Claim C1 (amended): the client starts a new session exactly when it holds
no `session_id` (POST `/interview`); with a session it continues it — via
`continueInterview` (POST `/interview/{session_id}`) when not waiting on the
coding challenge, and via `continueAfterCodingChallenge`
(POST `/interview/{session_id}/challenge-complete`) when waiting; after a
successful start the returned `session_id` is recorded in the context. -/
theorem C1_amended_session_routing :
    (∀ s w input uid, (handleSendMessageCall s w input uid).isStart = true ↔ s = none) ∧
    (∀ w input uid, handleSendMessageCall none w input uid = ApiCall.start input uid ∧
        (ApiCall.start input uid).endpoint = "/interview") ∧
    (∀ sid input uid, handleSendMessageCall (some sid) false input uid = ApiCall.cont input sid uid ∧
        (ApiCall.cont input sid uid).endpoint = "/interview/" ++ sid) ∧
    (∀ sid input uid, handleSendMessageCall (some sid) true input uid =
        ApiCall.challengeComplete input sid uid true ∧
        (ApiCall.challengeComplete input sid uid true).endpoint =
          "/interview/" ++ sid ++ "/challenge-complete") ∧
    (∀ u0 st w input resp sid, st.sessionId = none → resp.session_id = some sid →
        jsTrim input ≠ "" →
        (applyActions u0 st (textTurnActions st w input resp)).sessionId = some sid) := by
  refine ⟨?_, ?_, ?_, ?_, ?_⟩
  · intro s w input uid
    cases s with
    | none => simp [handleSendMessageCall, ApiCall.isStart]
    | some sid => cases w <;> simp [handleSendMessageCall, ApiCall.isStart]
  · intro w input uid
    exact ⟨rfl, rfl⟩
  · intro sid input uid
    exact ⟨rfl, rfl⟩
  · intro sid input uid
    exact ⟨rfl, rfl⟩
  · intro u0 st w input resp sid hs hr hguard
    have hg : (jsTrim input == "") = false := beq_eq_false_iff_ne.mpr hguard
    rcases hresp : resp.response with _ | r <;>
      rcases hstage : resp.interview_stage with _ | stg
    · simp [textTurnActions, hs, hr, hg, hresp, hstage, applyActions, reducer]
    · by_cases hc : ((stg == "coding_challenge" || stg == "coding_challenge_waiting")
          && resp.codingChallengeDetail.isSome) = true <;>
        simp [textTurnActions, hs, hr, hg, hresp, hstage, hc, applyActions, reducer]
    · simp [textTurnActions, hs, hr, hg, hresp, hstage, applyActions, reducer]
    · by_cases hc : ((stg == "coding_challenge" || stg == "coding_challenge_waiting")
          && resp.codingChallengeDetail.isSome) = true <;>
        simp [textTurnActions, hs, hr, hg, hresp, hstage, hc, applyActions, reducer]

/-- Witness for C1: a first message in a fresh context records the session id
`s-77` returned by the server. -/
theorem C1_amended_witness :
    (applyActions "u0" startState
        (textTurnActions startState false "Hello" startResp)).sessionId = some "s-77" :=
  C1_amended_session_routing.2.2.2.2 "u0" startState false "Hello" startResp "s-77"
    rfl rfl (by decide)

/-- Claim C2 counterexample: a regular chat message sent while the session is
waiting on the coding challenge does fire the challenge-complete POST — the
client routes it to `/interview/s1/challenge-complete` with
`challenge_completed = true`, contrary to "never fired by a regular chat
message sent while the session is waiting". -/
theorem C2_counterexample :
    (handleSendMessageCall (some "s1") true "What is the time limit?" "u1").endpoint =
      "/interview/" ++ "s1" ++ "/challenge-complete" ∧
    handleSendMessageCall (some "s1") true "What is the time limit?" "u1" =
      ApiCall.challengeComplete "What is the time limit?" "s1" "u1" true := by
  exact ⟨rfl, rfl⟩

/-- Claim C2 (amended): the transition out of the waiting stage is signalled
only through a POST to `/interview/{session_id}/challenge-complete` carrying
the completion flag (`continueAfterCodingChallenge`); a chat message sent while
NOT waiting goes to `/interview/{session_id}` and never fires it — but a chat
message sent while waiting is itself converted by the client into exactly that
challenge-complete POST with `challenge_completed = true`. -/
theorem C2_amended_challenge_complete_signal :
    (∀ sid input uid, handleSendMessageCall (some sid) true input uid =
        ApiCall.challengeComplete input sid uid true) ∧
    (∀ sid input uid, handleSendMessageCall (some sid) false input uid =
        ApiCall.cont input sid uid ∧
        (ApiCall.cont input sid uid).endpoint = "/interview/" ++ sid) ∧
    (∀ msg sid uid completed, sid ≠ "" → uid ≠ "" →
        continueAfterCodingChallenge msg (some sid) (some uid) completed =
          Except.ok ("/interview/" ++ sid ++ "/challenge-complete",
            { message := msg, user_id := uid, challenge_completed := completed })) := by
  refine ⟨?_, ?_, ?_⟩
  · intro sid input uid
    rfl
  · intro sid input uid
    exact ⟨rfl, rfl⟩
  · intro msg sid uid completed hsid huid
    simp [continueAfterCodingChallenge, strFalsy, hsid, huid]

/-- Witness for C2: the explicit return-to-interviewer signal posts the
completion body to the challenge-complete endpoint. -/
theorem C2_amended_witness :
    continueAfterCodingChallenge "return to interviewer for feedback"
        (some "s1") (some "u1") true =
      Except.ok ("/interview/" ++ "s1" ++ "/challenge-complete",
        { message := "return to interviewer for feedback", user_id := "u1",
          challenge_completed := true }) :=
  C2_amended_challenge_complete_signal.2.2 "return to interviewer for feedback"
    "s1" "u1" true (by decide) (by decide)

/-- Claim C3: the conversation messages sequence is append-only — across every
state update dispatched during a text or voice turn (successful or failed),
the previously recorded messages remain a prefix of the new messages list, so
earlier entries are never truncated, reordered or rewritten and at most new
entries are appended. -/
theorem C3_messages_append_only :
    (∀ u0 st w input resp, ∃ t,
        (applyActions u0 st (textTurnActions st w input resp)).messages = st.messages ++ t) ∧
    (∀ u0 st input, ∃ t,
        (applyActions u0 st (textTurnErrorActions input)).messages = st.messages ++ t) ∧
    (∀ u0 st resp, ∃ t,
        (applyActions u0 st (voiceTurnActions st resp)).messages = st.messages ++ t) ∧
    (∀ u0 st b, ∃ t,
        (applyActions u0 st (voiceTurnErrorActions b)).messages = st.messages ++ t) :=
  ⟨fun u0 st w input resp =>
      applyActions_messages_of_all u0 _ (textTurnActions_all_append_only st w input resp) st,
   fun u0 st input =>
      applyActions_messages_of_all u0 _ (textTurnErrorActions_all_append_only input) st,
   fun u0 st resp =>
      applyActions_messages_of_all u0 _ (voiceTurnActions_all_append_only st resp) st,
   fun u0 st b =>
      applyActions_messages_of_all u0 _ (voiceTurnErrorActions_all_append_only b) st⟩

/-- Claim C4: loading a session by its id immediately after saving it yields a
session whose messages and stage are identical to the saved ones (save
followed by load is the identity on messages and stage). -/
theorem C4_save_then_load_roundtrip (s : InterviewSession) (store : SessionStore) :
    ∃ s', SessionStore.load s.session_id (SessionStore.save s store) = some s' ∧
      s'.messages = s.messages ∧ s'.stage = s.stage :=
  ⟨s, by simp [SessionStore.load, SessionStore.save], rfl, rfl⟩

/-- Claim C5: replaying an inbound message that is already the session's last
message (same message identity) is a no-op — the session is returned unchanged
and no processing step runs — while a message with equal content but a
different identity is processed normally, so the duplicate check is by
identity, not content equality. -/
theorem C5_replay_idempotent :
    (∀ session msg last step, session.messages.getLast? = some last → last.id = msg.id →
        handleInboundMessage session msg step = session) ∧
    (∀ session msg last step, session.messages.getLast? = some last →
        last.content = msg.content → last.id ≠ msg.id →
        handleInboundMessage session msg step = step session msg) := by
  constructor
  · intro session msg last step hlast hid
    simp [handleInboundMessage, hlast, hid]
  · intro session msg last step hlast _ hid
    simp [handleInboundMessage, hlast, hid]

/-- Witness for C5: replaying message `m1` against a session ending in `m1` is
a no-op, while a same-content message with fresh id `m2` is processed. -/
theorem C5_replay_idempotent_witness :
    handleInboundMessage replaySession
        { id := "m1", role := "user", content := "hello" } appendStep = replaySession ∧
    handleInboundMessage replaySession
        { id := "m2", role := "user", content := "hello" } appendStep =
      appendStep replaySession { id := "m2", role := "user", content := "hello" } :=
  ⟨C5_replay_idempotent.1 replaySession { id := "m1", role := "user", content := "hello" }
      { id := "m1", role := "user", content := "hello" } appendStep rfl rfl,
   C5_replay_idempotent.2 replaySession { id := "m2", role := "user", content := "hello" }
      { id := "m1", role := "user", content := "hello" } appendStep rfl rfl (by decide)⟩

/-- Claim C6 counterexample: in the voice flow, a response carrying stage
`coding_challenge_waiting` together with a challenge detail does NOT record
that detail — starting from a state with an active challenge, the turn ends
with the challenge cleared instead of set to the delivered detail. -/
theorem C6_counterexample :
    (applyActions "u0" waitingVoiceState
        (voiceTurnActions waitingVoiceState waitingVoiceResp)).currentCodingChallenge = none ∧
    (applyActions "u0" waitingVoiceState
        (voiceTurnActions waitingVoiceState waitingVoiceResp)).currentCodingChallenge ≠
      some deliveredChallenge := by
  exact ⟨by decide, by decide⟩

/-- Claim C6 (amended): in the text flow, a response with stage
`coding_challenge` or `coding_challenge_waiting` together with a challenge
detail records that detail as the current coding challenge; in the voice flow
only a stage of `coding_challenge` with a detail records it, and a response
with any other stage (including `coding_challenge_waiting`) leaves the turn
with no active challenge; once a challenge is loaded, the client-side stage is
set to `coding_challenge_waiting`. -/
theorem C6_amended_challenge_recording :
    (∀ u0 st w input resp stg d, jsTrim input ≠ "" →
        resp.interview_stage = some stg →
        (stg = "coding_challenge" ∨ stg = "coding_challenge_waiting") →
        resp.codingChallengeDetail = some d →
        (applyActions u0 st (textTurnActions st w input resp)).currentCodingChallenge = some d) ∧
    (∀ u0 st resp d, resp.interview_stage = some "coding_challenge" →
        resp.codingChallengeDetail = some d →
        (applyActions u0 st (voiceTurnActions st resp)).currentCodingChallenge = some d) ∧
    (∀ u0 st resp stg, resp.interview_stage = some stg → stg ≠ "coding_challenge" →
        (applyActions u0 st (voiceTurnActions st resp)).currentCodingChallenge = none) ∧
    (∀ st, st.currentCodingChallenge.isSome = true →
        (codingChallengeStageEffect st).interviewStage = "coding_challenge_waiting") := by
  refine ⟨?_, ?_, ?_, ?_⟩
  · intro u0 st w input resp stg d hguard hstage hdisj hdet
    have hg : (jsTrim input == "") = false := beq_eq_false_iff_ne.mpr hguard
    rcases hdisj with h | h <;> subst h <;>
      rcases hs : st.sessionId with _ | sid0 <;>
        rcases hresp : resp.response with _ | r <;>
          rcases hsid : resp.session_id with _ | sid1 <;>
            simp [textTurnActions, hs, hresp, hsid, hstage, hdet, hg, applyActions, reducer]
  · intro u0 st resp d hstage hdet
    simp [voiceTurnActions, hstage, hdet, applyActions, reducer]
  · intro u0 st resp stg hstage hne
    have h1 : (stg == "coding_challenge") = false := beq_eq_false_iff_ne.mpr hne
    rcases hc : st.currentCodingChallenge with _ | c <;>
      simp [voiceTurnActions, hstage, h1, hne, hc, applyActions, reducer]
  · intro st h
    by_cases h2 : st.interviewStage = "coding_challenge_waiting"
    · simp [codingChallengeStageEffect, h, h2]
    · simp [codingChallengeStageEffect, h, h2]

/-- Witness for C6: a text-flow `coding_challenge` response records the
delivered detail; so does a voice-flow `coding_challenge` response; a
voice-flow `feedback` response clears the active challenge; and a loaded
challenge puts the stage at `coding_challenge_waiting`. -/
theorem C6_amended_witness :
    (applyActions "u0" textChallengeState
        (textTurnActions textChallengeState false "I am ready" textChallengeResp)).currentCodingChallenge =
      some deliveredChallenge ∧
    (applyActions "u0" textChallengeState
        (voiceTurnActions textChallengeState textChallengeResp)).currentCodingChallenge =
      some deliveredChallenge ∧
    (applyActions "u0" waitingVoiceState
        (voiceTurnActions waitingVoiceState feedbackVoiceResp)).currentCodingChallenge = none ∧
    (codingChallengeStageEffect waitingVoiceState).interviewStage = "coding_challenge_waiting" :=
  ⟨C6_amended_challenge_recording.1 "u0" textChallengeState false "I am ready" textChallengeResp
      "coding_challenge" deliveredChallenge (by decide) rfl (Or.inl rfl) rfl,
   C6_amended_challenge_recording.2.1 "u0" textChallengeState textChallengeResp
      deliveredChallenge rfl rfl,
   C6_amended_challenge_recording.2.2.1 "u0" waitingVoiceState feedbackVoiceResp
      "feedback" rfl (by decide),
   C6_amended_challenge_recording.2.2.2 waitingVoiceState rfl⟩

/-- Claim C7: a coding-challenge submission goes to `/coding/submit` only with
a challenge id and non-empty code — `submitChallengeCode` throws before any
network call when `challenge_id` is missing or the code is empty or
whitespace-only, and otherwise the body consists of `challenge_id`, `code`,
`user_id` and `session_id`; the editor's submit path additionally sends
`language`. -/
theorem C7_submit_challenge_validation :
    (∀ code userId sessionId, submitChallengeCode none code userId sessionId =
        .error "Challenge ID is required") ∧
    (∀ cid code userId sessionId, jsTrim code = "" →
        ∃ msg, submitChallengeCode cid code userId sessionId = .error msg) ∧
    (∀ cid code userId sessionId, cid ≠ "" → jsTrim code ≠ "" →
        submitChallengeCode (some cid) code userId sessionId =
          .ok { challenge_id := cid, code := code, user_id := userId, session_id := sessionId }) ∧
    (∀ d language code userId sessionId, jsTrim code ≠ "" →
        ∃ b, handleSubmitBody d language code userId sessionId = some b ∧
          b.language = language ∧ b.code = code ∧ b.user_id = userId ∧ b.session_id = sessionId) ∧
    (∀ d language code userId sessionId, jsTrim code = "" →
        handleSubmitBody d language code userId sessionId = none) := by
  refine ⟨?_, ?_, ?_, ?_, ?_⟩
  · intro code userId sessionId
    simp [submitChallengeCode, strFalsy]
  · intro cid code userId sessionId h
    cases cid with
    | none => exact ⟨"Challenge ID is required", by simp [submitChallengeCode, strFalsy]⟩
    | some c =>
        by_cases hc : c = ""
        · exact ⟨"Challenge ID is required", by simp [submitChallengeCode, strFalsy, hc]⟩
        · exact ⟨"Code solution is required", by simp [submitChallengeCode, strFalsy, hc, h]⟩
  · intro cid code userId sessionId hcid hcode
    have hc : code ≠ "" := by
      intro h
      exact hcode (by rw [h]; rfl)
    simp [submitChallengeCode, strFalsy, hcid, hc, hcode]
  · intro d language code userId sessionId h
    refine ⟨{ challenge_id := d.map (fun c => c.challenge_id), language := language,
              code := code, user_id := userId, session_id := sessionId },
            by simp [handleSubmitBody, h], rfl, rfl, rfl, rfl⟩
  · intro d language code userId sessionId h
    simp [handleSubmitBody, h]

/-- Witness for C7 at concrete inputs: a missing challenge id and a
whitespace-only solution are rejected, while a well-formed submission builds
the exact request body, and the editor path carries the language. -/
theorem C7_submit_challenge_validation_witness :
    submitChallengeCode none "print(1)" none none = .error "Challenge ID is required" ∧
    (∃ msg, submitChallengeCode (some "ch-1") "   " none none = .error msg) ∧
    submitChallengeCode (some "ch-1") "print(1)" (some "u1") (some "s1") =
      .ok { challenge_id := "ch-1", code := "print(1)", user_id := some "u1", session_id := some "s1" } ∧
    (∃ b, handleSubmitBody none "python" "print(1)" "u1" (some "s1") = some b ∧
      b.language = "python" ∧ b.code = "print(1)" ∧ b.user_id = "u1" ∧ b.session_id = some "s1") :=
  ⟨C7_submit_challenge_validation.1 "print(1)" none none,
   C7_submit_challenge_validation.2.1 (some "ch-1") "   " none none (by decide),
   C7_submit_challenge_validation.2.2.1 "ch-1" "print(1)" (some "u1") (some "s1") (by decide) (by decide),
   C7_submit_challenge_validation.2.2.2.1 none "python" "print(1)" "u1" (some "s1") (by decide)⟩

/-- Claim C8: `handleApiError` always throws an `Error` with a non-empty
message, and the response interceptor rewrites every status `>= 500` error
message to exactly the fixed server-error text and every status-429 error
message to exactly the fixed rate-limit text. -/
theorem C8_error_messages :
    (∀ e c, handleApiError e c ≠ "") ∧
    (∀ e n, e.hasResponse = true → e.status = some n → 500 ≤ n →
      (responseInterceptor e).message = "The server encountered an error. Please try again later.") ∧
    (∀ e, e.hasResponse = true → e.status = some 429 →
      (responseInterceptor e).message = "Too many requests. Please wait a moment before trying again.") := by
  refine ⟨?_, ?_, ?_⟩
  · intro e c
    unfold handleApiError
    by_cases h1 : e.hasResponse
    · simp only [h1, if_true]
      exact append_left_ne_empty _ _ (by decide)
    · simp only [h1, if_false, Bool.false_eq_true]
      by_cases h2 : e.hasRequest
      · simp [h1, h2]
      · by_cases h3 : e.message = ""
        · cases c with
          | none => simp [h1, h2, h3]
          | some c' =>
              by_cases h4 : c' = ""
              · simp [h1, h2, h3, h4]
              · simp [h1, h2, h3, h4]
        · simp [h1, h2, h3]
  · intro e n h1 h2 h3
    have hn : n ≠ 429 := by omega
    unfold responseInterceptor
    simp [h1, hn, statusAtLeast, h2, h3]
  · intro e h1 h2
    unfold responseInterceptor
    simp [h1, h2, statusAtLeast]

/-- Witness for C8 at concrete errors: a 503 gets the server-error text, a 429
the rate-limit text, and `handleApiError` produces a non-empty message. -/
theorem C8_error_messages_witness :
    handleApiError serverErr none ≠ "" ∧
    (responseInterceptor serverErr).message = "The server encountered an error. Please try again later." ∧
    (responseInterceptor rateLimitErr).message = "Too many requests. Please wait a moment before trying again." :=
  ⟨C8_error_messages.1 serverErr none,
   C8_error_messages.2.1 serverErr 503 rfl rfl (by decide),
   C8_error_messages.2.2 rateLimitErr rfl rfl⟩

/-- Claim C9: for every non-empty audio input, the `audio_data` field built by
`transcribeAndRespond` starts with `data:audio/` — a data URI is forwarded
unchanged, raw base64 is given the `data:audio/wav;base64,` URI — and missing
or empty audio throws before any network request. -/
theorem C9_audio_data_format :
    (∀ a : String, a ≠ "" →
      ∃ s, transcribeAndRespondAudioData (some a) = .ok s ∧
        strStartsWith s "data:audio/" = true) ∧
    (∀ a : String, strStartsWith a "data:audio/" = true →
      transcribeAndRespondAudioData (some a) = .ok a) ∧
    (∀ a : String, a ≠ "" → strStartsWith a "data:audio/" = false →
      transcribeAndRespondAudioData (some a) =
        .ok ("data:audio/wav;base64," ++ a)) ∧
    transcribeAndRespondAudioData none = .error "Audio data is required" ∧
    transcribeAndRespondAudioData (some "") = .error "Audio data is required" := by
  refine ⟨?_, ?_, ?_, rfl, rfl⟩
  · intro a ha
    by_cases h : strStartsWith a "data:audio/" = true
    · exact ⟨a, by simp [transcribeAndRespondAudioData, ha, h], h⟩
    · refine ⟨"data:audio/wav;base64," ++ a, ?_, wav_uri_starts_with_data_audio a⟩
      simp only [Bool.not_eq_true] at h
      simp [transcribeAndRespondAudioData, ha, h]
  · intro a h
    have ha : a ≠ "" := by
      intro hc
      rw [hc] at h
      exact absurd h (by decide)
    simp [transcribeAndRespondAudioData, ha, h]
  · intro a ha h
    simp [transcribeAndRespondAudioData, ha, h]

/-- Witness for C9 at concrete inputs: raw base64 `QUJD` gets the wav URI and a
`data:audio/webm` URI passes through unchanged. -/
theorem C9_audio_data_format_witness :
    (∃ s, transcribeAndRespondAudioData (some "QUJD") = .ok s ∧
        strStartsWith s "data:audio/" = true) ∧
    transcribeAndRespondAudioData (some "data:audio/webm;base64,QUJD") =
      .ok "data:audio/webm;base64,QUJD" ∧
    transcribeAndRespondAudioData (some "QUJD") =
      .ok ("data:audio/wav;base64," ++ "QUJD") :=
  ⟨C9_audio_data_format.1 "QUJD" (by decide),
   C9_audio_data_format.2.1 "data:audio/webm;base64,QUJD" (by decide),
   C9_audio_data_format.2.2.1 "QUJD" (by decide) (by decide)⟩

/-- Claim C10: dispatching RESET returns the context state exactly to its
initial value, except `userId`, which becomes `user-` followed by a freshly
generated uuid. -/
theorem C10_reset_returns_initial_state (u0 u : String) (s : ContextState) :
    reducer u0 s (.reset u) = { initialState u0 with userId := "user-" ++ u } ∧
    (reducer u0 s (.reset u)).sessionId = none ∧
    (reducer u0 s (.reset u)).messages = [] ∧
    (reducer u0 s (.reset u)).loading = false ∧
    (reducer u0 s (.reset u)).error = none ∧
    (reducer u0 s (.reset u)).voiceMode = false ∧
    (reducer u0 s (.reset u)).interviewStage = "introduction" ∧
    (reducer u0 s (.reset u)).jobRoleData = none ∧
    (reducer u0 s (.reset u)).currentCodingChallenge = none ∧
    (reducer u0 s (.reset u)).userId = "user-" ++ u := by
  refine ⟨rfl, rfl, rfl, rfl, rfl, rfl, rfl, rfl, rfl, rfl⟩
